import Mathlib

/-!
# Verification of the CORDIS summary pipeline (`HE_CORDIS_updates.py`)

A shallow embedding of the aggregation core of `do_cordis_summary`
(src/HE_CORDIS_updates.py, lines 157-320).  Relations are Lean lists of
structures; pandas group-by / merge / pivot operations become explicit list
operations.  Monetary values (the `ecContribution` family, coerced to
numeric-or-NaN at lines 144-146 of the source) are modelled as `Option Int`:
`none` is NaN/null.  pandas `sum` skips nulls (an all-null group sums to 0),
and `x > 0` is `false` for null, which the definitions below reproduce.
-/

namespace CORDIS

/-- One row of `df_orgs` (the concatenated participation relation built at
lines 130-148 of the source): one organisation-in-project participation. -/
structure OrgRow where
  organisationID : Option Int
  name : String
  shortName : String
  country : String
  activityType : String
  sme : String
  role : String
  order : Int
  ecContribution : Option Int
  netEcContribution : Option Int
  totalCost : Option Int
  projectID : Int
  projectAcronym : String
  frameworkProgramme : String
deriving DecidableEq

/-- One row of `df_projects` (lines 134-149; `id` renamed to `projectID`). -/
structure ProjectRow where
  projectID : Int
  title : String
  fundingScheme : String
  subCall : String
  ecSignatureDate : String
  startDate : String
  endDate : String
deriving DecidableEq

/-- One row of `df_country` after the merge, renames, `countryName`
derivation, PIC null-coercion and column selection of lines 160-169.
Fields joined in from `df_projects` are `Option`-valued because the merge is
a left join (`how='left'`, line 161): an unmatched `projectID` leaves them
null. -/
structure CRow where
  frameworkProgramme : String
  projectID : Int
  projectAcronym : String
  title : Option String
  ecSignatureDate : Option String
  startDate : Option String
  endDate : Option String
  country : String
  countryName : String
  PIC : Int
  Organisation : String
  shortName : String
  activityType : String
  SME : String
  typeOfAction : Option String
  subCall : Option String
  order : Int
  role : String
  ecContribution : Option Int
  netEcContribution : Option Int
  totalCost : Option Int
deriving DecidableEq

/-- Line 160: `df_orgs[df_orgs['country'].isin(country)]`. -/
def countryFilter (orgs : List OrgRow) (country : List String) : List OrgRow :=
  orgs.filter (fun o => decide (o.country ∈ country))

/-- Build one merged row from a participation row and (optionally) its
matching project row: the column pulls, renames, `countryName` map and the
`PIC` null-coercion `fillna(-1)` of lines 161-169.  `lookup` is the
country-code → country-name collaborator (`get_country_name`). -/
def joinRow (lookup : String → String) (o : OrgRow) (p : Option ProjectRow) : CRow where
  frameworkProgramme := o.frameworkProgramme
  projectID := o.projectID
  projectAcronym := o.projectAcronym
  title := p.map (·.title)
  ecSignatureDate := p.map (·.ecSignatureDate)
  startDate := p.map (·.startDate)
  endDate := p.map (·.endDate)
  country := o.country
  countryName := lookup o.country
  PIC := o.organisationID.getD (-1)
  Organisation := o.name
  shortName := o.shortName
  activityType := o.activityType
  SME := o.sme
  typeOfAction := p.map (·.fundingScheme)
  subCall := p.map (·.subCall)
  order := o.order
  role := o.role
  ecContribution := o.ecContribution
  netEcContribution := o.netEcContribution
  totalCost := o.totalCost

/-- Line 161: `pd.merge(df_country, df_projects[...], on='projectID',
how='left')`.  Every left row is retained; a row with several matches in
`df_projects` is multiplied (plain id-based left join, spec §9); a row with
no match gets nulls for the joined fields. -/
def mergeProjects (lookup : String → String) (rows : List OrgRow)
    (projects : List ProjectRow) : List CRow :=
  match rows with
  | [] => []
  | o :: rest =>
      (let ms := projects.filter (fun p => decide (p.projectID = o.projectID))
       if ms.isEmpty then [joinRow lookup o none]
       else ms.map (fun p => joinRow lookup o (some p))) ++
      mergeProjects lookup rest projects

/-- `ecContribution` as pandas sums read it: null counts as 0
(`sum` skips NaN; an all-NaN group sums to 0). -/
def ecVal (r : CRow) : Int := r.ecContribution.getD 0

/-- The `(x > 0)` test of lines 199/270/307: `NaN > 0` is `False` in pandas,
so a null (and a zero or negative) contribution is not "funded". -/
def ecPos (r : CRow) : Bool := decide (0 < r.ecContribution.getD 0)

/-- Order-preserving de-duplication keeping the first occurrence — the
semantics of pandas `Series.unique` and of `drop_duplicates` keys.  The
recursion `a :: (firstDedup l).filter (· ≠ a)` keeps each value's first
occurrence, in first-occurrence order: later duplicates of `a` are removed
by the filter. -/
def firstDedup {α : Type} [DecidableEq α] : List α → List α
  | [] => []
  | a :: l => a :: (firstDedup l).filter (fun b => decide (b ≠ a))

/-- `DataFrame.drop_duplicates(key)` (lines 175, 233, 263): keep the first
row for each key value, in original row order (same recursion as
`firstDedup`, comparing rows through the key `f`). -/
def dedupBy {α β : Type} [DecidableEq β] (f : α → β) : List α → List α
  | [] => []
  | a :: l => a :: (dedupBy f l).filter (fun b => decide (f b ≠ f a))

/-! ## Aggregation and pivot (lines 171-227, 258-311) -/

/-- The aggregate triple of lines 197-201 / 268-274 / 305-309: distinct
`projectID` count, count of rows with `ecContribution > 0`, and sum of
`ecContribution` (nulls as 0). -/
structure AggTriple where
  num_projects : Nat
  num_funded_projects : Nat
  total_ecContribution : Int
deriving DecidableEq

/-- The `.agg(num_projects=('projectID','nunique'),
num_funded_projects=('ecContribution', lambda x: (x > 0).sum()),
total_ecContribution=('ecContribution','sum'))` body, applied to the rows of
one group. -/
def aggAt (sub : List CRow) : AggTriple where
  num_projects := (firstDedup (sub.map (·.projectID))).length
  num_funded_projects := (sub.filter ecPos).length
  total_ecContribution := (sub.map ecVal).sum

/-- `groupby([key, 'frameworkProgramme']).agg(...)` (lines 197-201 with
`key = PIC`, lines 268-274 with `key = country`): one entry per observed
(key, programme) pair, carrying the aggregate triple of that group.  pandas
sorts group keys, but the table is only ever consulted through key lookup
(the pivot / merge), so entry order is irrelevant and we keep first-
appearance order. -/
def groupedFP {κ : Type} [DecidableEq κ] (key : CRow → κ) (rows : List CRow) :
    List ((κ × String) × AggTriple) :=
  (firstDedup (rows.map (fun r => (key r, r.frameworkProgramme)))).map
    (fun kf => (kf, aggAt (rows.filter
      (fun r => decide (key r = kf.1) && decide (r.frameworkProgramme = kf.2)))))

/-- One cell of the pivot table of lines 204-214 / 277-288: the triple for
(key, programme), with `fill_value=0` supplying zeros for a combination
absent from the grouped data. -/
def pivotCell {κ : Type} [DecidableEq κ] (tbl : List ((κ × String) × AggTriple))
    (k : κ) (fp : String) : AggTriple :=
  match tbl.find? (fun e => decide (e.1.1 = k) && decide (e.1.2 = fp)) with
  | some e => e.2
  | none => ⟨0, 0, 0⟩

/-- Distinct programmes appearing in the filtered-joined relation: these are
exactly the second-level pivot column labels produced at lines 204-214 and
277-288 (`pivot_table` only creates columns for values present in the
data). -/
def observedFPs (rows : List CRow) : List String :=
  firstDedup (rows.map (·.frameworkProgramme))

/-- The three programme names hard-wired into the column selections at lines
218-222 and 294-297. -/
def requiredFPs : List String := ["FP7", "H2020", "HORIZON"]

/-- Whether the fixed column selections at lines 218-222 / 294-297 succeed:
they index `num_projects_FP7`, ..., `total_ecContribution_HORIZON`, which
exist only when every one of the three programmes occurs in the filtered
data (otherwise pandas raises `KeyError`). -/
def hasAllFPs (rows : List CRow) : Bool :=
  requiredFPs.all (fun p => (observedFPs rows).contains p)

/-- Line 173: the per-organisation set of distinct programme names, in
first-appearance order.  The source builds the display string by iterating
a Python `set` of these names, whose order is an implicit parameter (it
depends on the per-process string hash seed); see `fpDisplay`. -/
def fpList (rows : List CRow) (k : Int) : List String :=
  firstDedup ((rows.filter (fun r => decide (r.PIC = k))).map (·.frameworkProgramme))

/-- Line 173, `', '.join(...)` applied to one enumeration of the programme
set.  The enumeration order is passed in explicitly because CPython set
iteration order over strings varies with the process hash seed. -/
def fpDisplay (iterOrder : List String) : String :=
  String.intercalate ", " iterOrder

/-- Lines 178-180: `groupby('PIC')['ecContribution'].sum()`, merged back on
the unique key — the total funding of one organisation (nulls as 0). -/
def orgTotalEC (rows : List CRow) (k : Int) : Int :=
  ((rows.filter (fun r => decide (r.PIC = k))).map ecVal).sum

/-- Lines 183-186: `groupby('PIC')['projectID'].nunique()`. -/
def orgProjectCount (rows : List CRow) (k : Int) : Nat :=
  (firstDedup ((rows.filter (fun r => decide (r.PIC = k))).map (·.projectID))).length

/-- One row of `df_country_orgs` after the selections and renames of lines
189-227 (`Orgs_summary` sheet). -/
structure OrgSummaryRow where
  PIC : Int
  Organisation : String
  shortName : String
  country : String
  countryName : String
  activityType : String
  SME : String
  projectCount : Nat
  frameworkProgrammes : String
  totalFunding : Int
  fp7Projects : Nat
  fp7FundedProjects : Nat
  fp7Funding : Int
  h2020Projects : Nat
  h2020FundedProjects : Nat
  h2020Funding : Int
  heuProjects : Nat
  heuFundedProjects : Nat
  heuFunding : Int
deriving DecidableEq

/-- The organisation-summary row for one representative participation row
`rep` (the first row with its `PIC`, line 175): descriptive attributes from
`rep`, aggregates and pivoted per-programme triples from the whole filtered
relation (lines 173-222).  All group-by results are merged back on the
unique group key with `how='left'`, so each merge is one-to-one and the
result is a pure function of (relation, representative). -/
def mkOrgSummaryRow (rows : List CRow) (rep : CRow) : OrgSummaryRow :=
  let tbl := groupedFP (·.PIC) rows
  let f := pivotCell tbl rep.PIC "FP7"
  let h := pivotCell tbl rep.PIC "H2020"
  let z := pivotCell tbl rep.PIC "HORIZON"
  { PIC := rep.PIC
    Organisation := rep.Organisation
    shortName := rep.shortName
    country := rep.country
    countryName := rep.countryName
    activityType := rep.activityType
    SME := rep.SME
    projectCount := orgProjectCount rows rep.PIC
    frameworkProgrammes := fpDisplay (fpList rows rep.PIC)
    totalFunding := orgTotalEC rows rep.PIC
    fp7Projects := f.num_projects
    fp7FundedProjects := f.num_funded_projects
    fp7Funding := f.total_ecContribution
    h2020Projects := h.num_projects
    h2020FundedProjects := h.num_funded_projects
    h2020Funding := h.total_ecContribution
    heuProjects := z.num_projects
    heuFundedProjects := z.num_funded_projects
    heuFunding := z.total_ecContribution }

/-! ## Project summary (lines 229-256) -/

/-- `x[x > 0].sum()` (lines 245, 250): sum of the strictly positive values;
nulls and non-positive values are excluded. -/
def posSum (xs : List (Option Int)) : Int :=
  ((xs.filterMap id).filter (fun v => decide (0 < v))).sum

/-- Line 231: distinct countries among filtered rows of one acronym. -/
def matchedCountriesOf (rows : List CRow) (acr : String) : List String :=
  firstDedup ((rows.filter (fun r => decide (r.projectAcronym = acr))).map (·.country))

/-- Line 237: distinct countries among ALL (unfiltered) participation rows
of one acronym. -/
def allCountriesOf (orgs : List OrgRow) (acr : String) : List String :=
  firstDedup ((orgs.filter (fun o => decide (o.projectAcronym = acr))).map (·.country))

/-- Lines 244-246: per `projectID`, sum of strictly positive contributions
among the filtered-joined rows. -/
def countryEC (rows : List CRow) (pid : Int) : Int :=
  posSum ((rows.filter (fun r => decide (r.projectID = pid))).map (·.ecContribution))

/-- Lines 249-251: per `projectID`, sum of strictly positive contributions
among ALL (unfiltered) participation rows. -/
def totalECAll (orgs : List OrgRow) (pid : Int) : Int :=
  posSum ((orgs.filter (fun o => decide (o.projectID = pid))).map (·.ecContribution))

/-- One row of `df_country_projects` after the selection at lines 254-256
(`FP_projects` sheet). -/
structure ProjectSummaryRow where
  frameworkProgramme : String
  projectID : Int
  projectAcronym : String
  title : Option String
  ecSignatureDate : Option String
  startDate : Option String
  endDate : Option String
  typeOfAction : Option String
  subCall : Option String
  country_ecContribution : Int
  total_ecContribution : Int
  matchedCountries : List String
  allCountries : List String
deriving DecidableEq

/-- Lines 229-256: one row per distinct `projectAcronym` of the filtered
relation (first occurrence, line 233), with matched/all country sets keyed
by acronym and positive-contribution sums keyed by the representative's
`projectID`. -/
def projectSummaryRows (rows : List CRow) (orgs : List OrgRow) :
    List ProjectSummaryRow :=
  (dedupBy (·.projectAcronym) rows).map (fun rep =>
    { frameworkProgramme := rep.frameworkProgramme
      projectID := rep.projectID
      projectAcronym := rep.projectAcronym
      title := rep.title
      ecSignatureDate := rep.ecSignatureDate
      startDate := rep.startDate
      endDate := rep.endDate
      typeOfAction := rep.typeOfAction
      subCall := rep.subCall
      country_ecContribution := countryEC rows rep.projectID
      total_ecContribution := totalECAll orgs rep.projectID
      matchedCountries := matchedCountriesOf rows rep.projectAcronym
      allCountries := allCountriesOf orgs rep.projectAcronym })

/-! ## Country summary (lines 258-311) -/

/-- One row of `df_countries_summary` after lines 294-311
(`Countries_summary` sheet). -/
structure CountrySummaryRow where
  country : String
  countryName : String
  projectAcronyms : List String
  fp7Projects : Nat
  fp7FundedProjects : Nat
  fp7Funding : Int
  h2020Projects : Nat
  h2020FundedProjects : Nat
  h2020Funding : Int
  heuProjects : Nat
  heuFundedProjects : Nat
  heuFunding : Int
  totalProjects : Nat
  totalFundedProjects : Nat
  totalFunding : Int
deriving DecidableEq

/-- Line 260: distinct project acronyms of one country, in first-appearance
order (pandas `unique`). -/
def countryAcronyms (rows : List CRow) (c : String) : List String :=
  firstDedup ((rows.filter (fun r => decide (r.country = c))).map (·.projectAcronym))

/-- Lines 305-309: the `groupby('country')` totals across all programmes —
the same aggregate triple, not broken down by programme. -/
def countryTotals (rows : List CRow) (c : String) : AggTriple :=
  aggAt (rows.filter (fun r => decide (r.country = c)))

/-- The country-summary row for one representative row `rep` (the first row
with its country, line 263), mirroring `mkOrgSummaryRow` with `country` as
the key (lines 258-311). -/
def mkCountrySummaryRow (rows : List CRow) (rep : CRow) : CountrySummaryRow :=
  let tbl := groupedFP (·.country) rows
  let f := pivotCell tbl rep.country "FP7"
  let h := pivotCell tbl rep.country "H2020"
  let z := pivotCell tbl rep.country "HORIZON"
  let t := countryTotals rows rep.country
  { country := rep.country
    countryName := rep.countryName
    projectAcronyms := countryAcronyms rows rep.country
    fp7Projects := f.num_projects
    fp7FundedProjects := f.num_funded_projects
    fp7Funding := f.total_ecContribution
    h2020Projects := h.num_projects
    h2020FundedProjects := h.num_funded_projects
    h2020Funding := h.total_ecContribution
    heuProjects := z.num_projects
    heuFundedProjects := z.num_funded_projects
    heuFunding := z.total_ecContribution
    totalProjects := t.num_projects
    totalFundedProjects := t.num_funded_projects
    totalFunding := t.total_ecContribution }

/-! ## The whole pipeline -/

/-- The four relations `do_cordis_summary` hands to the spreadsheet writer:
the filtered-joined detail (`FP_participation`, pre link-decoration — lines
316-320 only replace `PIC` / `projectID` cells by `=HYPERLINK(...)` display
strings), and the three summaries. -/
structure SummaryOutput where
  detail : List CRow
  orgs : List OrgSummaryRow
  projects : List ProjectSummaryRow
  countries : List CountrySummaryRow
deriving DecidableEq

/-- `do_cordis_summary(df_projects, df_orgs, country)` (lines 157-311): the
filter (160), left join (161-169), and the three summaries.  The fixed
column selections at lines 218-222 and 294-297 index the nine pivoted
per-programme columns, which exist only when each of FP7 / H2020 / HORIZON
occurs in the filtered data; otherwise pandas raises `KeyError`, modelled
as `Except.error`.  In particular a filter matching zero rows reaches no
summary at all. -/
def do_cordis_summary (df_projects : List ProjectRow) (df_orgs : List OrgRow)
    (country : List String) (lookup : String → String) :
    Except String SummaryOutput :=
  let df_country := mergeProjects lookup (countryFilter df_orgs country) df_projects
  if hasAllFPs df_country then
    .ok { detail := df_country
          orgs := (dedupBy (·.PIC) df_country).map (mkOrgSummaryRow df_country)
          projects := projectSummaryRows df_country df_orgs
          countries :=
            (dedupBy (·.country) df_country).map (mkCountrySummaryRow df_country) }
  else
    .error "KeyError: pivot columns missing for an absent framework programme"

/-- The three summary relations of a run, detail sheet dropped. -/
def summariesOf (e : Except String SummaryOutput) :
    Except String (List OrgSummaryRow × List ProjectSummaryRow × List CountrySummaryRow) :=
  e.map (fun out => (out.orgs, out.projects, out.countries))

/-- Null-contribution normalisation on participation rows: replace a null
`ecContribution` by 0 (a non-null value is unchanged).  pandas sums treat
null as 0 and `null > 0` is false, so the pipeline cannot distinguish a
null contribution from a zero one — made precise by `summariesOf_map_norm`
below. -/
def normO (o : OrgRow) : OrgRow :=
  { o with ecContribution := some (o.ecContribution.getD 0) }

/-- The same normalisation on filtered-joined rows. -/
def normC (r : CRow) : CRow :=
  { r with ecContribution := some (r.ecContribution.getD 0) }

/-! ## Concrete inputs used as witnesses and counterexamples -/

/-- A participation row with the fields the claims exercise; the remaining
descriptive fields are fixed. -/
def mkOrg (oid : Option Int) (nm c : String) (ec : Option Int) (pid : Int)
    (acr fp : String) : OrgRow :=
  { organisationID := oid, name := nm, shortName := nm, country := c,
    activityType := "HES", sme := "no", role := "participant", order := 1,
    ecContribution := ec, netEcContribution := none, totalCost := none,
    projectID := pid, projectAcronym := acr, frameworkProgramme := fp }

/-- Scenario relation (§8 of the spec, extended so that every programme
occurs): UniX (NZ) and UniY (AU) share project 100; one FP7 row; one
HORIZON row with null organisation id and null contribution. -/
def sampleOrgs : List OrgRow :=
  [ mkOrg (some 1) "UniX" "NZ" (some 50000) 100 "ABC" "H2020",
    mkOrg (some 2) "UniY" "AU" (some 30000) 100 "ABC" "H2020",
    mkOrg (some 1) "UniX" "NZ" (some 5) 1 "B" "FP7",
    mkOrg none "GhostOrg" "NZ" none 2 "C" "HORIZON" ]

def sampleProjects : List ProjectRow :=
  [⟨100, "TitleABC", "RIA", "call-1", "2021-01-01", "2021-06-01", "2024-06-01"⟩]

def noName : String → String := fun _ => ""

def sampleRun : Except String SummaryOutput :=
  do_cordis_summary sampleProjects sampleOrgs ["NZ"] noName

def emptySummary : SummaryOutput := ⟨[], [], [], []⟩

def sampleOut : SummaryOutput := sampleRun.toOption.getD emptySummary

def dOrgSummaryRow : OrgSummaryRow :=
  ⟨0, "", "", "", "", "", "", 0, "", 0, 0, 0, 0, 0, 0, 0, 0, 0, 0⟩

def dProjSummaryRow : ProjectSummaryRow :=
  ⟨"", 0, "", none, none, none, none, none, none, 0, 0, [], []⟩

def dCountrySummaryRow : CountrySummaryRow :=
  ⟨"", "", [], 0, 0, 0, 0, 0, 0, 0, 0, 0, 0, 0, 0⟩

def dCRow : CRow :=
  ⟨"", 0, "", none, none, none, none, "", "", 0, "", "", "", "",
   none, none, 0, "", none, none, none⟩

/-- The FP7 row of `sampleOrgs`: its projectID 1 has no match in
`sampleProjects`. -/
def w7org : OrgRow := mkOrg (some 1) "UniX" "NZ" (some 5) 1 "B" "FP7"

/-- The first three rows of `sampleOrgs` (everything before the
null-contribution ghost row). -/
def c6Prefix : List OrgRow :=
  [ mkOrg (some 1) "UniX" "NZ" (some 50000) 100 "ABC" "H2020",
    mkOrg (some 2) "UniY" "AU" (some 30000) 100 "ABC" "H2020",
    mkOrg (some 1) "UniX" "NZ" (some 5) 1 "B" "FP7" ]

/-- The HORIZON row of `sampleOrgs`: null organisation id. -/
def w8org : OrgRow := mkOrg none "GhostOrg" "NZ" none 2 "C" "HORIZON"

/-- Input whose filtered relation is nonempty but holds only H2020 rows. -/
def h2020OnlyOrgs : List OrgRow :=
  [ mkOrg (some 1) "SoloOrg" "NZ" (some 10) 7 "Z" "H2020" ]

/-- Project relation in which projectID 5 occurs twice (id collision across
programmes, spec §9) together with a participation relation where NZ and AU
share project 5. -/
def dupProjects : List ProjectRow :=
  [⟨5, "T1", "RIA", "c", "d", "s", "e"⟩, ⟨5, "T2", "IA", "c", "d", "s", "e"⟩]

def dupOrgs : List OrgRow :=
  [ mkOrg (some 1) "OrgA" "NZ" (some 100) 5 "AA" "H2020",
    mkOrg (some 2) "OrgB" "AU" (some 50) 5 "AA" "H2020",
    mkOrg (some 3) "OrgC" "NZ" (some 3) 1 "BB" "FP7",
    mkOrg (some 4) "OrgD" "NZ" (some 7) 2 "CC" "HORIZON" ]

def dupRun : Except String SummaryOutput :=
  do_cordis_summary dupProjects dupOrgs ["NZ"] noName

/-- (matched-country sum, all-country sum) per project-summary row. -/
def projectECs (e : Except String SummaryOutput) : Option (List (Int × Int)) :=
  e.toOption.map (fun out =>
    out.projects.map (fun r => (r.country_ecContribution, r.total_ecContribution)))

/-- Two organisations of the same country, each with a strictly positive
contribution in the same project (plus one FP7 and one HORIZON row so the
pivot columns exist). -/
def c10Orgs : List OrgRow :=
  [ mkOrg (some 1) "OrgA" "NZ" (some 10) 100 "AA" "H2020",
    mkOrg (some 2) "OrgB" "NZ" (some 20) 100 "AA" "H2020",
    mkOrg (some 1) "OrgA" "NZ" (some 5) 1 "BB" "FP7",
    mkOrg (some 3) "OrgC" "NZ" (some 7) 2 "CC" "HORIZON" ]

def c10Run : Except String SummaryOutput :=
  do_cordis_summary [] c10Orgs ["NZ"] noName

/-- (H2020 funded count, H2020 distinct project count, total funded count,
total distinct project count) per country-summary row. -/
def c10Stats (e : Except String SummaryOutput) :
    Option (List (Nat × Nat × Nat × Nat)) :=
  e.toOption.map (fun out =>
    out.countries.map (fun r =>
      (r.h2020FundedProjects, r.h2020Projects, r.totalFundedProjects, r.totalProjects)))

/-! ## Basic lemmas on de-duplication -/

theorem mem_firstDedup {α : Type} [DecidableEq α] (l : List α) (a : α) :
    a ∈ firstDedup l ↔ a ∈ l := by
  induction l with
  | nil => rfl
  | cons b l ih =>
    simp only [firstDedup, List.mem_cons, List.mem_filter, ih, decide_eq_true_eq]
    by_cases hab : a = b
    · simp [hab]
    · simp [hab]

theorem nodup_firstDedup {α : Type} [DecidableEq α] (l : List α) :
    (firstDedup l).Nodup := by
  induction l with
  | nil => exact List.nodup_nil
  | cons b l ih =>
    refine List.nodup_cons.mpr ⟨?_, ih.filter _⟩
    simp [List.mem_filter]

theorem map_filter_eq {α β : Type} (f : α → β) (p : β → Bool) (l : List α) :
    (l.map f).filter p = (l.filter (fun a => p (f a))).map f := by
  induction l with
  | nil => rfl
  | cons a l ih =>
    simp only [List.map_cons, List.filter_cons]
    by_cases h : p (f a)
    · simp [h, ih]
    · simp [h, ih]

/-- The keys of the de-duplicated relation are exactly the distinct keys of
the relation, in first-appearance order. -/
theorem map_dedupBy {α β : Type} [DecidableEq β] (f : α → β) (l : List α) :
    (dedupBy f l).map f = firstDedup (l.map f) := by
  induction l with
  | nil => rfl
  | cons a l ih =>
    simp only [dedupBy, List.map_cons, firstDedup, List.cons.injEq, true_and]
    rw [← ih, map_filter_eq]

theorem mem_of_mem_dedupBy {α β : Type} [DecidableEq β] (f : α → β) (l : List α)
    (r : α) (h : r ∈ dedupBy f l) : r ∈ l := by
  induction l generalizing r with
  | nil => cases h
  | cons a l ih =>
    rcases List.mem_cons.mp h with h | h
    · exact h ▸ List.mem_cons_self _ _
    · exact List.mem_cons_of_mem _ (ih _ (List.mem_of_mem_filter h))

theorem nodup_filter_eq_length {α : Type} [DecidableEq α] (l : List α)
    (h : l.Nodup) (k : α) (hk : k ∈ l) :
    (l.filter (fun b => decide (b = k))).length = 1 := by
  induction l with
  | nil => exact absurd hk (List.not_mem_nil k)
  | cons a l ih =>
    rcases List.nodup_cons.mp h with ⟨ha, hl⟩
    by_cases hak : a = k
    · subst hak
      have hnil : l.filter (fun b => decide (b = a)) = [] := by
        rw [List.filter_eq_nil_iff]
        intro b hb
        simp only [decide_eq_true_eq]
        exact fun hba => ha (hba ▸ hb)
      simp [List.filter_cons, hnil]
    · have hkl : k ∈ l := by
        rcases List.mem_cons.mp hk with h' | h'
        · exact absurd h'.symm hak
        · exact h'
      simp [List.filter_cons, hak, ih hl hkl]

/-- In a relation whose `f`-keys are pairwise distinct, at most one element
has a given key. -/
theorem filter_count_le_one {α β : Type} [DecidableEq β] (f : α → β) (l : List α)
    (h : (l.map f).Nodup) (x : β) :
    (l.filter (fun a => decide (f a = x))).length ≤ 1 := by
  induction l with
  | nil => simp
  | cons a l ih =>
    simp only [List.map_cons, List.nodup_cons] at h
    obtain ⟨ha, hl⟩ := h
    by_cases hax : f a = x
    · subst hax
      have hnil : l.filter (fun b => decide (f b = f a)) = [] := by
        rw [List.filter_eq_nil_iff]
        intro b hb
        simp only [decide_eq_true_eq]
        exact fun hba => ha (hba ▸ List.mem_map_of_mem f hb)
      simp [List.filter_cons, hnil]
    · simp only [List.filter_cons, hax]
      simpa using ih hl

/-- When `projectID` is unique in the project relation, the left join is
one-to-one: the contribution column of the joined rows of any one
`projectID` equals the contribution column of the participation rows of
that `projectID`. -/
theorem mergeProjects_filter_pid (lookup : String → String) (rows : List OrgRow)
    (projs : List ProjectRow) (hU : (projs.map (·.projectID)).Nodup) (P : Int) :
    ((mergeProjects lookup rows projs).filter
        (fun r => decide (r.projectID = P))).map (·.ecContribution)
      = ((rows.filter (fun o => decide (o.projectID = P))).map (·.ecContribution)) := by
  induction rows with
  | nil => rfl
  | cons o l ih =>
    simp only [mergeProjects]
    rw [List.filter_append, List.map_append, ih, List.filter_cons]
    cases hms : projs.filter (fun p => decide (p.projectID = o.projectID)) with
    | nil =>
      by_cases hP : o.projectID = P
      · simp [List.filter_cons, joinRow, hP]
      · simp [List.filter_cons, joinRow, hP]
    | cons p ps =>
      have hlen := filter_count_le_one (fun p : ProjectRow => p.projectID) projs hU o.projectID
      rw [hms] at hlen
      simp only [List.length_cons] at hlen
      have hps : ps = [] := List.length_eq_zero.mp (by omega)
      subst hps
      by_cases hP : o.projectID = P
      · simp [List.filter_cons, joinRow, hP]
      · simp [List.filter_cons, joinRow, hP]

theorem sum_le_sum_of_sublist_of_nonneg {l₁ l₂ : List Int} (h : l₁.Sublist l₂)
    (hpos : ∀ v ∈ l₂, 0 ≤ v) : l₁.sum ≤ l₂.sum := by
  induction h with
  | slnil => simp
  | cons a h ih =>
    simp only [List.sum_cons]
    have h1 := ih (fun v hv => hpos v (List.mem_cons_of_mem _ hv))
    have h2 := hpos a (List.mem_cons_self _ _)
    omega
  | cons₂ a h ih =>
    simp only [List.sum_cons]
    have h1 := ih (fun v hv => hpos v (List.mem_cons_of_mem _ hv))
    omega

/-- `x[x > 0].sum()` is monotone under passing to a sub-relation. -/
theorem posSum_le_of_sublist (xs ys : List (Option Int)) (h : xs.Sublist ys) :
    posSum xs ≤ posSum ys := by
  unfold posSum
  refine sum_le_sum_of_sublist_of_nonneg ((h.filterMap id).filter _) ?_
  intro v hv
  have hmem := List.of_mem_filter hv
  simp only [decide_eq_true_eq] at hmem
  omega

/-- A key present in the relation owns exactly one row of the de-duplicated
relation. -/
theorem dedupBy_filter_key_length {α β : Type} [DecidableEq β] (f : α → β) (l : List α)
    (k : β) (hk : k ∈ l.map f) :
    ((dedupBy f l).filter (fun a => decide (f a = k))).length = 1 := by
  have h1 : ((dedupBy f l).filter (fun a => decide (f a = k))).length
      = (((dedupBy f l).map f).filter (fun b => decide (b = k))).length := by
    rw [map_filter_eq, List.length_map]
  rw [h1, map_dedupBy]
  exact nodup_filter_eq_length _ (nodup_firstDedup _) k ((mem_firstDedup _ _).mpr hk)

/-! ## The pivot cell is the per-(key, programme) aggregate, zero-filled -/

/-- `pivot_table(..., fill_value=0)` looked up at (key, programme) equals
the aggregate triple computed directly over the rows of that (key,
programme) group — in particular it is `⟨0, 0, 0⟩` when the combination is
absent from the data. -/
theorem pivotCell_groupedFP {κ : Type} [DecidableEq κ] (key : CRow → κ)
    (rows : List CRow) (k : κ) (fp : String) :
    pivotCell (groupedFP key rows) k fp
      = aggAt (rows.filter
          (fun r => decide (key r = k) && decide (r.frameworkProgramme = fp))) := by
  unfold pivotCell
  cases hf : (groupedFP key rows).find?
      (fun e => decide (e.1.1 = k) && decide (e.1.2 = fp)) with
  | none =>
    have hnone := List.find?_eq_none.mp hf
    have hempty : rows.filter
        (fun r => decide (key r = k) && decide (r.frameworkProgramme = fp)) = [] := by
      rw [List.filter_eq_nil_iff]
      intro r hr hpred
      simp only [Bool.and_eq_true, decide_eq_true_eq] at hpred
      have hmem : ((k, fp) : κ × String)
          ∈ rows.map (fun r => (key r, r.frameworkProgramme)) :=
        List.mem_map.mpr ⟨r, hr, by rw [hpred.1, hpred.2]⟩
      have hmem2 : ((k, fp) : κ × String)
          ∈ firstDedup (rows.map (fun r => (key r, r.frameworkProgramme))) :=
        (mem_firstDedup _ _).mpr hmem
      have hent : ((k, fp),
          aggAt (rows.filter (fun r =>
            decide (key r = ((k, fp) : κ × String).1) &&
            decide (r.frameworkProgramme = ((k, fp) : κ × String).2))))
          ∈ groupedFP key rows := by
        unfold groupedFP
        exact List.mem_map_of_mem _ hmem2
      exact (hnone _ hent) (by simp)
    rw [hempty]
    rfl
  | some e =>
    have hpred := List.find?_some hf
    have hmem := List.mem_of_find?_eq_some hf
    unfold groupedFP at hmem
    rcases List.mem_map.mp hmem with ⟨kf, hkf, hekf⟩
    cases kf with
    | mk k1 f1 =>
      rw [← hekf] at hpred ⊢
      simp only [Bool.and_eq_true, decide_eq_true_eq] at hpred
      rw [hpred.1, hpred.2]

/-- Inverting a successful run: the guard of the column selections held,
and the output is the filter-join-aggregate composite. -/
theorem do_cordis_summary_ok {projs : List ProjectRow} {orgs : List OrgRow}
    {cs : List String} {lookup : String → String} {out : SummaryOutput}
    (h : do_cordis_summary projs orgs cs lookup = .ok out) :
    hasAllFPs (mergeProjects lookup (countryFilter orgs cs) projs) = true
    ∧ out =
      (let df := mergeProjects lookup (countryFilter orgs cs) projs
       { detail := df
         orgs := (dedupBy (·.PIC) df).map (mkOrgSummaryRow df)
         projects := projectSummaryRows df orgs
         countries := (dedupBy (·.country) df).map (mkCountrySummaryRow df) }) := by
  simp only [do_cordis_summary] at h
  split at h
  · next hall =>
    simp only [Except.ok.injEq] at h
    exact ⟨hall, h.symm⟩
  · simp at h

/-- Summing `ecContribution` (nulls as 0) separately over the three
programme slices of one organisation's rows and adding the parts gives the
sum over all of that organisation's rows — provided every row's programme
is one of FP7 / H2020 / HORIZON (the invariant established at lines 138-140
of the source, where `frameworkProgramme` is assigned those three constants
before concatenation). -/
theorem sum_ecVal_split (rows : List CRow) (k : Int)
    (hfp : ∀ r ∈ rows, r.frameworkProgramme ∈ requiredFPs) :
    ((rows.filter (fun r => decide (r.PIC = k) && decide (r.frameworkProgramme = "FP7"))).map ecVal).sum
    + ((rows.filter (fun r => decide (r.PIC = k) && decide (r.frameworkProgramme = "H2020"))).map ecVal).sum
    + ((rows.filter (fun r => decide (r.PIC = k) && decide (r.frameworkProgramme = "HORIZON"))).map ecVal).sum
    = ((rows.filter (fun r => decide (r.PIC = k))).map ecVal).sum := by
  induction rows with
  | nil => rfl
  | cons r l ih =>
    have hr : r.frameworkProgramme = "FP7" ∨ r.frameworkProgramme = "H2020"
        ∨ r.frameworkProgramme = "HORIZON" := by
      have := hfp r (List.mem_cons_self r l)
      simpa [requiredFPs] using this
    have ihl := ih (fun x hx => hfp x (List.mem_cons_of_mem _ hx))
    by_cases hk : r.PIC = k
    · rcases hr with h1 | h1 | h1 <;>
        simp [List.filter_cons, hk, h1] <;> omega
    · simp [List.filter_cons, hk, ihl]

/-! ## Null contributions behave as zero: normalisation lemmas

`normO` / `normC` replace a null `ecContribution` by 0.  Every aggregate of
the pipeline reads the contribution only through `getD 0` (sums), through
`x > 0` (funded counts, false for null and for 0), or not at all, so each
stage commutes with the normalisation; composing the stages shows the three
summary relations of a run are unchanged when every null contribution is
replaced by 0. -/

theorem filter_map_of_pred_comm {α : Type} (g : α → α) (p : α → Bool)
    (hp : ∀ a, p (g a) = p a) (l : List α) :
    (l.map g).filter p = (l.filter p).map g := by
  rw [map_filter_eq]
  congr 1
  exact List.filter_congr (fun a _ => hp a)

theorem aggAt_map_normC (l : List CRow) : aggAt (l.map normC) = aggAt l := by
  unfold aggAt
  congr 1
  · rw [List.map_map]
    rfl
  · rw [filter_map_of_pred_comm normC ecPos (fun r => rfl), List.length_map]
  · rw [List.map_map]
    rfl

theorem groupedFP_map_normC {κ : Type} [DecidableEq κ] (key : CRow → κ)
    (hkey : ∀ r, key (normC r) = key r) (l : List CRow) :
    groupedFP key (l.map normC) = groupedFP key l := by
  unfold groupedFP
  have h1 : (l.map normC).map (fun r => (key r, r.frameworkProgramme))
      = l.map (fun r => (key r, r.frameworkProgramme)) := by
    rw [List.map_map]
    exact List.map_congr_left (fun r _ => by
      simp only [Function.comp_apply, hkey r]
      rfl)
  rw [h1]
  refine List.map_congr_left (fun kf _ => ?_)
  have h2 : ∀ r : CRow, (decide (key (normC r) = kf.1)
      && decide ((normC r).frameworkProgramme = kf.2))
      = (decide (key r = kf.1) && decide (r.frameworkProgramme = kf.2)) := by
    intro r
    rw [hkey r]
    rfl
  rw [filter_map_of_pred_comm normC _ h2, aggAt_map_normC]

theorem posSum_cons (x : Option Int) (xs : List (Option Int)) :
    posSum (x :: xs)
      = (match x with | some v => if 0 < v then v else 0 | none => 0) + posSum xs := by
  cases x with
  | none => simp [posSum, List.filterMap_cons]
  | some v =>
    by_cases hv : 0 < v
    · simp [posSum, List.filterMap_cons, List.filter_cons, hv]
    · simp [posSum, List.filterMap_cons, List.filter_cons, hv]

theorem posSum_map_ec_normC (xs : List CRow) :
    posSum (xs.map (fun r => (normC r).ecContribution))
      = posSum (xs.map (fun r => r.ecContribution)) := by
  induction xs with
  | nil => rfl
  | cons r t ih =>
    simp only [List.map_cons, posSum_cons, ih]
    cases hec : r.ecContribution <;> simp [normC, hec]

theorem posSum_map_ec_normO (xs : List OrgRow) :
    posSum (xs.map (fun o => (normO o).ecContribution))
      = posSum (xs.map (fun o => o.ecContribution)) := by
  induction xs with
  | nil => rfl
  | cons o t ih =>
    simp only [List.map_cons, posSum_cons, ih]
    cases hec : o.ecContribution <;> simp [normO, hec]

theorem orgTotalEC_map_normC (l : List CRow) (k : Int) :
    orgTotalEC (l.map normC) k = orgTotalEC l k := by
  unfold orgTotalEC
  rw [filter_map_of_pred_comm normC (fun r => decide (r.PIC = k)) (fun r => rfl),
    List.map_map]
  rfl

theorem orgProjectCount_map_normC (l : List CRow) (k : Int) :
    orgProjectCount (l.map normC) k = orgProjectCount l k := by
  unfold orgProjectCount
  rw [filter_map_of_pred_comm normC (fun r => decide (r.PIC = k)) (fun r => rfl),
    List.map_map]
  rfl

theorem fpList_map_normC (l : List CRow) (k : Int) :
    fpList (l.map normC) k = fpList l k := by
  unfold fpList
  rw [filter_map_of_pred_comm normC (fun r => decide (r.PIC = k)) (fun r => rfl),
    List.map_map]
  rfl

theorem observedFPs_map_normC (l : List CRow) :
    observedFPs (l.map normC) = observedFPs l := by
  unfold observedFPs
  rw [List.map_map]
  rfl

theorem hasAllFPs_map_normC (l : List CRow) :
    hasAllFPs (l.map normC) = hasAllFPs l := by
  unfold hasAllFPs
  rw [observedFPs_map_normC]

theorem countryEC_map_normC (l : List CRow) (pid : Int) :
    countryEC (l.map normC) pid = countryEC l pid := by
  unfold countryEC
  rw [filter_map_of_pred_comm normC (fun r => decide (r.projectID = pid)) (fun r => rfl),
    List.map_map]
  exact posSum_map_ec_normC _

theorem totalECAll_map_normO (orgs : List OrgRow) (pid : Int) :
    totalECAll (orgs.map normO) pid = totalECAll orgs pid := by
  unfold totalECAll
  rw [filter_map_of_pred_comm normO (fun o => decide (o.projectID = pid)) (fun o => rfl),
    List.map_map]
  exact posSum_map_ec_normO _

theorem matchedCountriesOf_map_normC (l : List CRow) (acr : String) :
    matchedCountriesOf (l.map normC) acr = matchedCountriesOf l acr := by
  unfold matchedCountriesOf
  rw [filter_map_of_pred_comm normC (fun r => decide (r.projectAcronym = acr)) (fun r => rfl),
    List.map_map]
  rfl

theorem allCountriesOf_map_normO (orgs : List OrgRow) (acr : String) :
    allCountriesOf (orgs.map normO) acr = allCountriesOf orgs acr := by
  unfold allCountriesOf
  rw [filter_map_of_pred_comm normO (fun o => decide (o.projectAcronym = acr)) (fun o => rfl),
    List.map_map]
  rfl

theorem countryAcronyms_map_normC (l : List CRow) (c : String) :
    countryAcronyms (l.map normC) c = countryAcronyms l c := by
  unfold countryAcronyms
  rw [filter_map_of_pred_comm normC (fun r => decide (r.country = c)) (fun r => rfl),
    List.map_map]
  rfl

theorem countryTotals_map_normC (l : List CRow) (c : String) :
    countryTotals (l.map normC) c = countryTotals l c := by
  unfold countryTotals
  rw [filter_map_of_pred_comm normC (fun r => decide (r.country = c)) (fun r => rfl),
    aggAt_map_normC]

theorem dedupBy_map_normC {κ : Type} [DecidableEq κ] (key : CRow → κ)
    (hkey : ∀ r, key (normC r) = key r) (l : List CRow) :
    dedupBy key (l.map normC) = (dedupBy key l).map normC := by
  induction l with
  | nil => rfl
  | cons a t ih =>
    simp only [List.map_cons, dedupBy, ih]
    rw [filter_map_of_pred_comm normC (fun b => decide (key b ≠ key (normC a)))
      (fun b => by
        show decide (key (normC b) ≠ key (normC a)) = decide (key b ≠ key (normC a))
        rw [hkey b])]
    have heq : (fun b : CRow => decide (key b ≠ key (normC a)))
        = (fun b : CRow => decide (key b ≠ key a)) := by
      funext b
      rw [hkey a]
    rw [heq]

theorem countryFilter_map_normO (orgs : List OrgRow) (cs : List String) :
    countryFilter (orgs.map normO) cs = (countryFilter orgs cs).map normO := by
  unfold countryFilter
  exact filter_map_of_pred_comm normO (fun o => decide (o.country ∈ cs)) (fun o => rfl) orgs

theorem mergeProjects_map_normO (lookup : String → String) (rows : List OrgRow)
    (projs : List ProjectRow) :
    mergeProjects lookup (rows.map normO) projs
      = (mergeProjects lookup rows projs).map normC := by
  induction rows with
  | nil => rfl
  | cons o t ih =>
    simp only [List.map_cons, mergeProjects, List.map_append, ih]
    congr 1
    have hpid : (normO o).projectID = o.projectID := rfl
    rw [hpid]
    cases hms : projs.filter (fun p => decide (p.projectID = o.projectID)) with
    | nil => rfl
    | cons p ps =>
      simp only [List.isEmpty_cons, Bool.false_eq_true, if_false, List.map_map]
      rfl

theorem mkOrgSummaryRow_map_normC (l : List CRow) (rep : CRow) :
    mkOrgSummaryRow (l.map normC) (normC rep) = mkOrgSummaryRow l rep := by
  simp only [mkOrgSummaryRow]
  rw [groupedFP_map_normC (fun r : CRow => r.PIC) (fun r => rfl) l,
    orgProjectCount_map_normC, fpList_map_normC, orgTotalEC_map_normC]
  rfl

theorem mkCountrySummaryRow_map_normC (l : List CRow) (rep : CRow) :
    mkCountrySummaryRow (l.map normC) (normC rep) = mkCountrySummaryRow l rep := by
  simp only [mkCountrySummaryRow]
  rw [groupedFP_map_normC (fun r : CRow => r.country) (fun r => rfl) l,
    countryAcronyms_map_normC, countryTotals_map_normC]
  rfl

theorem orgSummaryRows_map_normC (l : List CRow) :
    (dedupBy (·.PIC) (l.map normC)).map (mkOrgSummaryRow (l.map normC))
      = (dedupBy (·.PIC) l).map (mkOrgSummaryRow l) := by
  rw [dedupBy_map_normC (fun r : CRow => r.PIC) (fun r => rfl) l, List.map_map]
  exact List.map_congr_left (fun rep _ => by
    simp only [Function.comp_apply]
    exact mkOrgSummaryRow_map_normC l rep)

theorem countrySummaryRows_map_normC (l : List CRow) :
    (dedupBy (·.country) (l.map normC)).map (mkCountrySummaryRow (l.map normC))
      = (dedupBy (·.country) l).map (mkCountrySummaryRow l) := by
  rw [dedupBy_map_normC (fun r : CRow => r.country) (fun r => rfl) l, List.map_map]
  exact List.map_congr_left (fun rep _ => by
    simp only [Function.comp_apply]
    exact mkCountrySummaryRow_map_normC l rep)

theorem projectSummaryRows_map_norm (l : List CRow) (orgs : List OrgRow) :
    projectSummaryRows (l.map normC) (orgs.map normO) = projectSummaryRows l orgs := by
  unfold projectSummaryRows
  rw [dedupBy_map_normC (fun r : CRow => r.projectAcronym) (fun r => rfl) l, List.map_map]
  refine List.map_congr_left (fun rep _ => ?_)
  simp only [Function.comp_apply]
  rw [countryEC_map_normC, totalECAll_map_normO, matchedCountriesOf_map_normC,
    allCountriesOf_map_normO]
  rfl

theorem summariesOf_map_norm (projs : List ProjectRow) (orgs : List OrgRow)
    (cs : List String) (lookup : String → String) :
    summariesOf (do_cordis_summary projs (orgs.map normO) cs lookup)
      = summariesOf (do_cordis_summary projs orgs cs lookup) := by
  simp only [do_cordis_summary]
  rw [countryFilter_map_normO, mergeProjects_map_normO, hasAllFPs_map_normC]
  by_cases hall : hasAllFPs (mergeProjects lookup (countryFilter orgs cs) projs) = true
  · simp only [hall, if_true]
    unfold summariesOf
    simp only [Except.map]
    rw [orgSummaryRows_map_normC, projectSummaryRows_map_norm, countrySummaryRows_map_normC]
  · simp only [hall, Bool.false_eq_true, if_false]

/-! ## Claim theorems -/

/-- **C1** (code_bug): the spec requires a country filter matching zero rows
to yield three empty summary relations and no error, but `do_cordis_summary`
cannot produce them: with zero filtered rows the pivot table has no
programme columns at all, and the fixed column selection at lines 218-222
raises `KeyError`.  Here the filter for country "AD" matches zero rows of
the scenario relation, and the run signals an error instead of returning
empty summaries. -/
theorem C1_empty_filter_raises_KeyError :
    countryFilter sampleOrgs ["AD"] = []
    ∧ do_cordis_summary sampleProjects sampleOrgs ["AD"] noName
        = .error "KeyError: pivot columns missing for an absent framework programme" :=
  ⟨rfl, rfl⟩

/-- **C2** (counterexample): the claim asserts the pivot zero-fills a
programme that has zero rows in the whole filtered data, but `pivot_table`
only creates columns for programmes present in the data; with a nonempty
filtered relation containing only H2020 rows the observed programme column
set is just `["H2020"]` and the fixed nine-column selection at lines
218-222 raises `KeyError` — no zero-filled FP7/HORIZON columns exist. -/
theorem C2_absent_programme_not_zero_filled :
    countryFilter h2020OnlyOrgs ["NZ"] ≠ []
    ∧ observedFPs (mergeProjects noName (countryFilter h2020OnlyOrgs ["NZ"]) [])
        = ["H2020"]
    ∧ do_cordis_summary [] h2020OnlyOrgs ["NZ"] noName
        = .error "KeyError: pivot columns missing for an absent framework programme" := by
  refine ⟨?_, rfl, rfl⟩
  intro h
  simp [countryFilter, h2020OnlyOrgs, mkOrg] at h

/-- **C9** (code_bug): every stage except one is a pure function of the
inputs, but the `Framework programmes` display string of line 173 is built
by `', '.join(set(...))`, i.e. by iterating a CPython `set` of programme
names, whose order varies with the per-process string hash seed.  Two
enumerations of the same two-element programme set produce different
display strings, so two runs on identical inputs need not agree byte for
byte. -/
theorem C9_programme_string_depends_on_set_order :
    fpDisplay ["H2020", "HORIZON"] ≠ fpDisplay ["HORIZON", "H2020"]
    ∧ (["H2020", "HORIZON"] : List String).Perm ["HORIZON", "H2020"] := by
  constructor
  · decide
  · decide

/-- **C10** (confirmed): the per-country funded-project counts (lines
268-274 per programme, lines 305-309 overall) count participation rows with
`ecContribution > 0`, not distinct projects: on `c10Orgs`, where two NZ
organisations each hold a positive contribution in project 100, the NZ
country row has H2020 funded count 2 against H2020 distinct-project count
1, and overall funded count 4 against distinct-project count 3. -/
theorem C10_funded_counts_rows_not_projects :
    c10Stats c10Run = some [(2, 1, 4, 3)] ∧ 1 < 2 ∧ 3 < 4 := by
  refine ⟨by decide, by decide, by decide⟩

/-- **C2** (amended): whenever the run succeeds — i.e. each of FP7, H2020
and HORIZON occurs in at least one filtered row, so the nine pivot columns
exist — every organisation-summary row's per-programme triple, and every
country-summary row's per-programme triple, equals the aggregate {distinct
projectId count, count of rows with positive contribution, contribution
sum} over the rows of that (key, programme) group, which is `⟨0, 0, 0⟩`
when the combination is absent from the data (`fill_value=0`).  A programme
with zero rows in the whole filtered data instead aborts the run — see the
counterexample theorem. -/
theorem C2_pivot_triples_zero_filled {projs : List ProjectRow} {orgs : List OrgRow}
    {cs : List String} {lookup : String → String} {out : SummaryOutput}
    (h : do_cordis_summary projs orgs cs lookup = .ok out)
    (row : OrgSummaryRow) (hrow : row ∈ out.orgs)
    (crow : CountrySummaryRow) (hcrow : crow ∈ out.countries) :
    (⟨row.fp7Projects, row.fp7FundedProjects, row.fp7Funding⟩ : AggTriple)
      = aggAt (out.detail.filter (fun r =>
          decide (r.PIC = row.PIC) && decide (r.frameworkProgramme = "FP7")))
    ∧ (⟨row.h2020Projects, row.h2020FundedProjects, row.h2020Funding⟩ : AggTriple)
      = aggAt (out.detail.filter (fun r =>
          decide (r.PIC = row.PIC) && decide (r.frameworkProgramme = "H2020")))
    ∧ (⟨row.heuProjects, row.heuFundedProjects, row.heuFunding⟩ : AggTriple)
      = aggAt (out.detail.filter (fun r =>
          decide (r.PIC = row.PIC) && decide (r.frameworkProgramme = "HORIZON")))
    ∧ (⟨crow.fp7Projects, crow.fp7FundedProjects, crow.fp7Funding⟩ : AggTriple)
      = aggAt (out.detail.filter (fun r =>
          decide (r.country = crow.country) && decide (r.frameworkProgramme = "FP7")))
    ∧ (⟨crow.h2020Projects, crow.h2020FundedProjects, crow.h2020Funding⟩ : AggTriple)
      = aggAt (out.detail.filter (fun r =>
          decide (r.country = crow.country) && decide (r.frameworkProgramme = "H2020")))
    ∧ (⟨crow.heuProjects, crow.heuFundedProjects, crow.heuFunding⟩ : AggTriple)
      = aggAt (out.detail.filter (fun r =>
          decide (r.country = crow.country) && decide (r.frameworkProgramme = "HORIZON"))) := by
  obtain ⟨-, hout⟩ := do_cordis_summary_ok h
  subst hout
  rcases List.mem_map.mp hrow with ⟨rep, hrep, hrow'⟩
  subst hrow'
  rcases List.mem_map.mp hcrow with ⟨crep, hcrep, hcrow'⟩
  subst hcrow'
  exact ⟨pivotCell_groupedFP (·.PIC) _ rep.PIC "FP7",
         pivotCell_groupedFP (·.PIC) _ rep.PIC "H2020",
         pivotCell_groupedFP (·.PIC) _ rep.PIC "HORIZON",
         pivotCell_groupedFP (·.country) _ crep.country "FP7",
         pivotCell_groupedFP (·.country) _ crep.country "H2020",
         pivotCell_groupedFP (·.country) _ crep.country "HORIZON"⟩

/-- Witness for C2: in the scenario run, the first organisation row's FP7
triple and the first country row's HORIZON triple are the per-(key,
programme) aggregates (the HORIZON group of NZ holds exactly the null-PIC
null-contribution ghost row: 1 project, 0 funded, sum 0). -/
theorem C2_pivot_triples_zero_filled_witness :
    (⟨(sampleOut.orgs.getD 0 dOrgSummaryRow).fp7Projects,
      (sampleOut.orgs.getD 0 dOrgSummaryRow).fp7FundedProjects,
      (sampleOut.orgs.getD 0 dOrgSummaryRow).fp7Funding⟩ : AggTriple)
      = aggAt (sampleOut.detail.filter (fun r =>
          decide (r.PIC = (sampleOut.orgs.getD 0 dOrgSummaryRow).PIC)
          && decide (r.frameworkProgramme = "FP7")))
    ∧ (⟨(sampleOut.countries.getD 0 dCountrySummaryRow).heuProjects,
        (sampleOut.countries.getD 0 dCountrySummaryRow).heuFundedProjects,
        (sampleOut.countries.getD 0 dCountrySummaryRow).heuFunding⟩ : AggTriple)
      = aggAt (sampleOut.detail.filter (fun r =>
          decide (r.country = (sampleOut.countries.getD 0 dCountrySummaryRow).country)
          && decide (r.frameworkProgramme = "HORIZON"))) :=
  ⟨(@C2_pivot_triples_zero_filled sampleProjects sampleOrgs ["NZ"] noName sampleOut rfl
      (sampleOut.orgs.getD 0 dOrgSummaryRow) (by decide)
      (sampleOut.countries.getD 0 dCountrySummaryRow) (by decide)).1,
   (@C2_pivot_triples_zero_filled sampleProjects sampleOrgs ["NZ"] noName sampleOut rfl
      (sampleOut.orgs.getD 0 dOrgSummaryRow) (by decide)
      (sampleOut.countries.getD 0 dCountrySummaryRow) (by decide)).2.2.2.2.2⟩

/-- **C3** (confirmed): on a successful run the organisation summary's key
column is exactly the first-occurrence de-duplication of the filtered-joined
relation's `PIC` column: its keys are in first-appearance order, contain no
duplicates, and a key occurs in the summary iff it occurs in the filtered
relation (lines 175-217: `drop_duplicates('PIC')` followed by one-to-one
merges on the unique key). -/
theorem C3_one_row_per_PIC_in_order {projs : List ProjectRow} {orgs : List OrgRow}
    {cs : List String} {lookup : String → String} {out : SummaryOutput}
    (h : do_cordis_summary projs orgs cs lookup = .ok out) (k : Int) :
    out.orgs.map (·.PIC) = firstDedup (out.detail.map (·.PIC))
    ∧ (out.orgs.map (·.PIC)).Nodup
    ∧ (k ∈ out.orgs.map (·.PIC) ↔ k ∈ out.detail.map (·.PIC)) := by
  obtain ⟨-, hout⟩ := do_cordis_summary_ok h
  subst hout
  have hmap : (((dedupBy (·.PIC) (mergeProjects lookup (countryFilter orgs cs) projs)).map
        (mkOrgSummaryRow (mergeProjects lookup (countryFilter orgs cs) projs))).map (·.PIC))
      = firstDedup ((mergeProjects lookup (countryFilter orgs cs) projs).map (·.PIC)) := by
    rw [List.map_map]
    exact map_dedupBy (fun r : CRow => r.PIC)
      (mergeProjects lookup (countryFilter orgs cs) projs)
  refine ⟨hmap, ?_, ?_⟩
  · rw [hmap]
    exact nodup_firstDedup _
  · rw [hmap]
    exact mem_firstDedup _ _

/-- Witness for C3: the scenario run's organisation keys are `[1, -1]` —
first-appearance order, no duplicates — and key 1 occurs on both sides. -/
theorem C3_one_row_per_PIC_in_order_witness :
    sampleOut.orgs.map (·.PIC) = firstDedup (sampleOut.detail.map (·.PIC))
    ∧ ((1 : Int) ∈ sampleOut.orgs.map (·.PIC) ↔ (1 : Int) ∈ sampleOut.detail.map (·.PIC)) :=
  ⟨(@C3_one_row_per_PIC_in_order sampleProjects sampleOrgs ["NZ"] noName sampleOut rfl 1).1,
   (@C3_one_row_per_PIC_in_order sampleProjects sampleOrgs ["NZ"] noName sampleOut rfl 1).2.2⟩

/-- **C4** (confirmed): for every organisation row of a successful run, the
three per-programme contribution sums add up to the total contribution
column (lines 178-180 vs 197-217), nulls as 0 throughout — under the data
invariant that every row's programme is FP7, H2020 or HORIZON, which lines
138-140 of the source establish for all CORDIS data. -/
theorem C4_pivot_totals_reconcile {projs : List ProjectRow} {orgs : List OrgRow}
    {cs : List String} {lookup : String → String} {out : SummaryOutput}
    (h : do_cordis_summary projs orgs cs lookup = .ok out)
    (hfp : ∀ r ∈ out.detail, r.frameworkProgramme ∈ requiredFPs)
    (row : OrgSummaryRow) (hrow : row ∈ out.orgs) :
    row.fp7Funding + row.h2020Funding + row.heuFunding = row.totalFunding := by
  obtain ⟨-, hout⟩ := do_cordis_summary_ok h
  subst hout
  rcases List.mem_map.mp hrow with ⟨rep, hrep, hrow'⟩
  subst hrow'
  show (pivotCell (groupedFP (·.PIC) _) rep.PIC "FP7").total_ecContribution
      + (pivotCell (groupedFP (·.PIC) _) rep.PIC "H2020").total_ecContribution
      + (pivotCell (groupedFP (·.PIC) _) rep.PIC "HORIZON").total_ecContribution
      = orgTotalEC _ rep.PIC
  rw [pivotCell_groupedFP, pivotCell_groupedFP, pivotCell_groupedFP]
  exact sum_ecVal_split _ rep.PIC hfp

/-- Witness for C4: UniX's row in the scenario run reconciles
(5 + 50000 + 0 = 50005). -/
theorem C4_pivot_totals_reconcile_witness :
    (sampleOut.orgs.getD 0 dOrgSummaryRow).fp7Funding
    + (sampleOut.orgs.getD 0 dOrgSummaryRow).h2020Funding
    + (sampleOut.orgs.getD 0 dOrgSummaryRow).heuFunding
    = (sampleOut.orgs.getD 0 dOrgSummaryRow).totalFunding :=
  @C4_pivot_totals_reconcile sampleProjects sampleOrgs ["NZ"] noName sampleOut rfl (by decide)
    (sampleOut.orgs.getD 0 dOrgSummaryRow) (by decide)

/-- **C5** (counterexample): matched-country contribution can exceed the
total contribution.  With projectID 5 occurring twice in the project
relation (id collision across programmes, spec §9), the id-based left join
duplicates the NZ participation row of project 5, so its 100 is summed
twice on the filtered side (200) while the unfiltered side — grouped over
the participation relation before the join — sums 100 + 50 = 150. -/
theorem C5_matched_exceeds_total_on_id_collision :
    ¬ (dupProjects.map (·.projectID)).Nodup
    ∧ projectECs dupRun = some [(200, 150), (3, 3), (7, 7)]
    ∧ ¬ ((200 : Int) ≤ 150) := by
  refine ⟨by decide, by decide, by decide⟩

/-- **C5** (amended): provided `projectID` is unique in the project
relation (so the left join of line 161 is one-to-one; spec §9 flags the
collision case as a latent risk), every project-summary row's
matched-country contribution is at most its total contribution, with
equality when the country filter covers every country participating in the
project. -/
theorem C5_matched_le_total {projs : List ProjectRow} {orgs : List OrgRow}
    {cs : List String} {lookup : String → String} {out : SummaryOutput}
    (hU : (projs.map (·.projectID)).Nodup)
    (h : do_cordis_summary projs orgs cs lookup = .ok out)
    (row : ProjectSummaryRow) (hrow : row ∈ out.projects) :
    row.country_ecContribution ≤ row.total_ecContribution
    ∧ ((∀ o ∈ orgs, o.projectID = row.projectID → o.country ∈ cs) →
        row.country_ecContribution = row.total_ecContribution) := by
  obtain ⟨-, hout⟩ := do_cordis_summary_ok h
  subst hout
  rcases List.mem_map.mp hrow with ⟨rep, hrep, hrow'⟩
  subst hrow'
  have hkey : countryEC (mergeProjects lookup (countryFilter orgs cs) projs) rep.projectID
      = posSum (((countryFilter orgs cs).filter
          (fun o => decide (o.projectID = rep.projectID))).map (·.ecContribution)) := by
    unfold countryEC
    rw [mergeProjects_filter_pid lookup (countryFilter orgs cs) projs hU rep.projectID]
  constructor
  · show countryEC _ rep.projectID ≤ totalECAll orgs rep.projectID
    rw [hkey]
    unfold totalECAll
    exact posSum_le_of_sublist _ _
      (((List.filter_sublist _).filter _).map _)
  · intro hcov
    show countryEC _ rep.projectID = totalECAll orgs rep.projectID
    rw [hkey]
    unfold totalECAll countryFilter
    congr 2
    rw [List.filter_filter]
    refine List.filter_congr ?_
    intro o ho
    by_cases hp : o.projectID = rep.projectID
    · simp [hp, hcov o ho hp]
    · simp [hp]

/-- Witness for C5: in the scenario run (unique project ids) the row of
acronym "B" has matched = total = 5, and its country filter {NZ} covers
every participant of project 1. -/
theorem C5_matched_le_total_witness :
    (sampleOut.projects.getD 1 dProjSummaryRow).country_ecContribution
      ≤ (sampleOut.projects.getD 1 dProjSummaryRow).total_ecContribution
    ∧ (sampleOut.projects.getD 1 dProjSummaryRow).country_ecContribution
      = (sampleOut.projects.getD 1 dProjSummaryRow).total_ecContribution :=
  ⟨(@C5_matched_le_total sampleProjects sampleOrgs ["NZ"] noName sampleOut (by decide) rfl
      (sampleOut.projects.getD 1 dProjSummaryRow) (by decide)).1,
   (@C5_matched_le_total sampleProjects sampleOrgs ["NZ"] noName sampleOut (by decide) rfl
      (sampleOut.projects.getD 1 dProjSummaryRow) (by decide)).2 (by decide)⟩

/-- **C7** (confirmed): the join of line 161 is a left join: a filtered
participation row whose `projectID` matches no project is retained with
nulls for all six joined project fields, and no participation row is ever
dropped (the joined relation has at least one row per participation
row). -/
theorem C7_left_join_keeps_unmatched_rows (lookup : String → String)
    (rows : List OrgRow) (projs : List ProjectRow) (o : OrgRow) (ho : o ∈ rows)
    (hm : ∀ p ∈ projs, p.projectID ≠ o.projectID) :
    (joinRow lookup o none ∈ mergeProjects lookup rows projs
      ∧ (joinRow lookup o none).title = none
      ∧ (joinRow lookup o none).typeOfAction = none
      ∧ (joinRow lookup o none).subCall = none
      ∧ (joinRow lookup o none).ecSignatureDate = none
      ∧ (joinRow lookup o none).startDate = none
      ∧ (joinRow lookup o none).endDate = none)
    ∧ rows.length ≤ (mergeProjects lookup rows projs).length := by
  refine ⟨⟨?_, rfl, rfl, rfl, rfl, rfl, rfl⟩, ?_⟩
  · induction rows with
    | nil => cases ho
    | cons a l ih =>
      simp only [mergeProjects]
      rcases List.mem_cons.mp ho with h | h
      · subst h
        have hnil : projs.filter (fun p => decide (p.projectID = o.projectID)) = [] := by
          rw [List.filter_eq_nil_iff]
          intro p hp hpp
          simp only [decide_eq_true_eq] at hpp
          exact hm p hp hpp
        rw [hnil]
        simp
      · exact List.mem_append_right _ (ih h)
  · clear ho
    induction rows with
    | nil => simp [mergeProjects]
    | cons a l ih =>
      simp only [mergeProjects, List.length_append, List.length_cons]
      cases hms : projs.filter (fun p => decide (p.projectID = a.projectID)) with
      | nil =>
        simp only [List.isEmpty_nil, if_true, List.length_cons]
        simp
        omega
      | cons p ps =>
        simp only [List.isEmpty_cons, List.length_map]
        simp
        omega

/-- Witness for C7: the FP7 row of the scenario (projectID 1, no match in
`sampleProjects`) survives the join with null project fields, and the join
drops no rows. -/
theorem C7_left_join_keeps_unmatched_rows_witness :
    (joinRow noName w7org none ∈ mergeProjects noName sampleOrgs sampleProjects
      ∧ (joinRow noName w7org none).title = none
      ∧ (joinRow noName w7org none).typeOfAction = none
      ∧ (joinRow noName w7org none).subCall = none
      ∧ (joinRow noName w7org none).ecSignatureDate = none
      ∧ (joinRow noName w7org none).startDate = none
      ∧ (joinRow noName w7org none).endDate = none)
    ∧ sampleOrgs.length ≤ (mergeProjects noName sampleOrgs sampleProjects).length :=
  C7_left_join_keeps_unmatched_rows noName sampleOrgs sampleProjects w7org
    (by decide) (by decide)

/-- **C8** (confirmed): `fillna(-1)` at line 164 coerces a null
`organisationID` to -1 before any grouping, and the organisation summary of
a successful run whose detail relation contains a PIC −1 row has exactly
one row keyed −1: all null-id rows land in that single aggregate bucket
instead of being dropped. -/
theorem C8_null_org_id_single_bucket (lookup : String → String)
    {projs : List ProjectRow} {orgs : List OrgRow} {cs : List String}
    {out : SummaryOutput} (o : OrgRow) (p : Option ProjectRow)
    (hnull : o.organisationID = none)
    (h : do_cordis_summary projs orgs cs lookup = .ok out)
    (r : CRow) (hr : r ∈ out.detail) (hrPIC : r.PIC = -1) :
    (joinRow lookup o p).PIC = -1
    ∧ (out.orgs.filter (fun x => decide (x.PIC = -1))).length = 1 := by
  constructor
  · show o.organisationID.getD (-1) = -1
    rw [hnull]
    rfl
  · obtain ⟨-, hout⟩ := do_cordis_summary_ok h
    subst hout
    rw [map_filter_eq, List.length_map]
    exact dedupBy_filter_key_length (fun r : CRow => r.PIC) _ (-1)
      (List.mem_map.mpr ⟨r, hr, hrPIC⟩)

/-- Witness for C8: the ghost HORIZON row (null organisation id) maps to
PIC −1, and the scenario organisation summary has exactly one −1 row. -/
theorem C8_null_org_id_single_bucket_witness :
    (joinRow noName w8org none).PIC = -1
    ∧ (sampleOut.orgs.filter (fun x => decide (x.PIC = -1))).length = 1 :=
  @C8_null_org_id_single_bucket noName sampleProjects sampleOrgs ["NZ"] sampleOut
    w8org none rfl rfl (sampleOut.detail.getD 2 dCRow) (by decide) (by decide)

/-- **C6** (confirmed): replacing one participation row's null
`ecContribution` by 0 leaves the organisation, project and country summary
relations of the run identical — every contribution sum (and every other
summary column) is the same as if the null were 0 — and a row whose
contribution is not strictly positive (null, zero or negative, i.e.
`ecPos = false`) is never counted by the funded-project aggregate: deleting
it leaves every funded count unchanged. -/
theorem C6_null_contribution_as_zero (projs : List ProjectRow)
    (l₁ l₂ : List OrgRow) (o₀ : OrgRow) (cs : List String)
    (lookup : String → String) (p : CRow → Bool) (m₁ m₂ : List CRow)
    (r₀ : CRow) (hnull : o₀.ecContribution = none) (hr₀ : ecPos r₀ = false) :
    summariesOf (do_cordis_summary projs (l₁ ++ o₀ :: l₂) cs lookup)
      = summariesOf (do_cordis_summary projs
          (l₁ ++ { o₀ with ecContribution := some 0 } :: l₂) cs lookup)
    ∧ (aggAt ((m₁ ++ r₀ :: m₂).filter p)).num_funded_projects
      = (aggAt ((m₁ ++ m₂).filter p)).num_funded_projects := by
  constructor
  · rw [← summariesOf_map_norm projs (l₁ ++ o₀ :: l₂),
        ← summariesOf_map_norm projs (l₁ ++ {o₀ with ecContribution := some 0} :: l₂)]
    have hmaps : (l₁ ++ o₀ :: l₂).map normO
        = (l₁ ++ {o₀ with ecContribution := some 0} :: l₂).map normO := by
      simp only [List.map_append, List.map_cons]
      congr 2
      simp [normO, hnull]
    rw [hmaps]
  · show (((m₁ ++ r₀ :: m₂).filter p).filter ecPos).length
      = (((m₁ ++ m₂).filter p).filter ecPos).length
    by_cases hp : p r₀ <;>
      simp [List.filter_append, List.filter_cons, hp, hr₀]

/-- Witness for C6: nulling-or-zeroing the ghost row's contribution does
not change the scenario summaries, and the null-contribution `dCRow` is not
counted by the funded aggregate. -/
theorem C6_null_contribution_as_zero_witness :
    summariesOf (do_cordis_summary sampleProjects (c6Prefix ++ w8org :: []) ["NZ"] noName)
      = summariesOf (do_cordis_summary sampleProjects
          (c6Prefix ++ { w8org with ecContribution := some 0 } :: []) ["NZ"] noName)
    ∧ (aggAt (([] ++ dCRow :: []).filter (fun r => decide (r.country = "NZ")))).num_funded_projects
      = (aggAt (([] ++ ([] : List CRow)).filter (fun r => decide (r.country = "NZ")))).num_funded_projects :=
  C6_null_contribution_as_zero sampleProjects c6Prefix [] w8org ["NZ"] noName
    (fun r => decide (r.country = "NZ")) [] [] dCRow rfl rfl

end CORDIS
